import Mathlib

/-!
Verification development for the skyvern-beta cron trigger engine.

The definitions below are a shallow embedding of the Python sources:
  * `src/skyvern/utils/cron_validator.py`   (cron-expression validator)
  * `src/skyvern/services/cron_trigger_service.py` (poll loop, dedup registry,
    run tasks, start/stop lifecycle)
  * `src/skyvern/services/cron_scheduler.py` (APScheduler-based loader)
  * `src/skyvern/forge/sdk/routes/workflow_schedules.py` (set/get schedule routes)
-/

set_option maxRecDepth 8000

namespace CronSpec

/-! ## A small regular-expression engine

`validate_cron_expression` validates each cron field with `re.match` against an
anchored pattern (every top-level alternative of each pattern is of the form
`^...$`), so `re.match` succeeding is exactly a full match of the alternation.
We model the compiled form of each pattern as a `RE` term and match with
Brzozowski derivatives.  `re.IGNORECASE` is modelled by case-insensitive
character tests where letters occur. -/

inductive RE : Type where
  | emp  : RE
  | eps  : RE
  | cls  : (Char → Bool) → RE
  | cat  : RE → RE → RE
  | alt  : RE → RE → RE
  | star : RE → RE

def RE.nullable : RE → Bool
  | .emp => false
  | .eps => true
  | .cls _ => false
  | .cat a b => a.nullable && b.nullable
  | .alt a b => a.nullable || b.nullable
  | .star _ => true

def RE.deriv : RE → Char → RE
  | .emp, _ => .emp
  | .eps, _ => .emp
  | .cls p, c => if p c then .eps else .emp
  | .cat a b, c =>
      if a.nullable then .alt (.cat (a.deriv c) b) (b.deriv c)
      else .cat (a.deriv c) b
  | .alt a b, c => .alt (a.deriv c) (b.deriv c)
  | .star a, c => .cat (a.deriv c) (.star a)

/-- Full-match of a regular expression against a list of characters. -/
def RE.matchList (r : RE) (cs : List Char) : Bool :=
  (cs.foldl RE.deriv r).nullable

/-- Full-match against a string (models a successful anchored `re.match`). -/
def RE.matchStr (r : RE) (s : String) : Bool :=
  r.matchList s.data

/-- Single literal character (case sensitive). -/
def chr (c : Char) : RE := RE.cls (fun x => x == c)

/-- Single literal character under `re.IGNORECASE`. -/
def chrCI (c : Char) : RE := RE.cls (fun x => x.toLower == c.toLower)

/-- Literal word under `re.IGNORECASE` (used for month / weekday names). -/
def strCI (s : String) : RE :=
  s.data.foldr (fun c r => RE.cat (chrCI c) r) RE.eps

/-- Character range `[lo-hi]`. -/
def rng (lo hi : Char) : RE := RE.cls (fun x => lo ≤ x && x ≤ hi)

/-- `r?` -/
def ropt (r : RE) : RE := RE.alt RE.eps r

/-- n-ary alternation (right nested). -/
def alts : List RE → RE
  | [] => RE.emp
  | [r] => r
  | r :: rs => RE.alt r (alts rs)

/-- n-ary concatenation (right nested). -/
def cats : List RE → RE
  | [] => RE.eps
  | [r] => r
  | r :: rs => RE.cat r (cats rs)

/-! ## Pattern compilation and `re.error`

Python's `re.match(pattern, string)` first compiles `pattern`; compilation
raises `re.error` when the pattern's parentheses are unbalanced (which is the
case for the validator's `day_of_week` pattern, see `dowPattern_unbalanced`
below).  `parensBalanced` scans a pattern the way the `re` parser pairs
groups: a backslash escapes the next character, and parentheses inside a
`[...]` character class are literals. -/

def parensScan : List Char → Bool → Bool → Nat → Bool
  | [], _, _, d => d == 0
  | _ :: rest, true, inCls, d => parensScan rest false inCls d
  | c :: rest, false, true, d =>
      if c == '\\' then parensScan rest true true d
      else if c == ']' then parensScan rest false false d
      else parensScan rest false true d
  | c :: rest, false, false, d =>
      if c == '\\' then parensScan rest true false d
      else if c == '[' then parensScan rest false true d
      else if c == '(' then parensScan rest false false (d + 1)
      else if c == ')' then
        match d with
        | 0 => false
        | d' + 1 => parensScan rest false false d'
      else parensScan rest false false d

def parensBalanced (pat : String) : Bool :=
  parensScan pat.data false false 0

/-- The exception Python's `re` module raises on a malformed pattern. -/
inductive PyError : Type where
  | reUnbalanced : PyError
deriving DecidableEq, Repr

/-- Model of `re.match(pattern, field)` used as a boolean: compiling an
unbalanced pattern raises `re.error`; otherwise the compiled automaton
(`r`, the hand-compiled form of `pat`) decides the match. -/
def reMatch (pat : String) (r : RE) (s : String) : Except PyError Bool :=
  if parensBalanced pat then .ok (r.matchStr s) else .error .reUnbalanced

/-! ## The five field patterns of `cron_validator.py` (copied verbatim) -/

def minutePattern : String :=
  "^(\\*|[0-5]?[0-9](-[0-5]?[0-9])?)(,(\\*|[0-5]?[0-9](-[0-5]?[0-9])?))*$|^\\*/[1-9][0-9]?$"

def hourPattern : String :=
  "^(\\*|[01]?[0-9]|2[0-3])((-|\\/)([01]?[0-9]|2[0-3]))?(,([01]?[0-9]|2[0-3])((-|\\/)([01]?[0-9]|2[0-3]))?)*$|^\\*/([1-9]|1[0-9]|2[0-3])$"

def domPattern : String :=
  "^(\\*|[1-9]|[12][0-9]|3[01])((-|\\/)(([1-9]|[12][0-9]|3[01])))?(,(([1-9]|[12][0-9]|3[01])((-|\\/)(([1-9]|[12][0-9]|3[01])))?))*$|^\\*/([1-9]|[12][0-9]|3[01])$|^\\?$"

def monthPattern : String :=
  "^(\\*|[1-9]|1[0-2]|JAN|FEB|MAR|APR|MAY|JUN|JUL|AUG|SEP|OCT|NOV|DEC)((-|\\/)(([1-9]|1[0-2]|JAN|FEB|MAR|APR|MAY|JUN|JUL|AUG|SEP|OCT|NOV|DEC)))?(,(([1-9]|1[0-2]|JAN|FEB|MAR|APR|MAY|JUN|JUL|AUG|SEP|OCT|NOV|DEC)((-|\\/)(([1-9]|1[0-2]|JAN|FEB|MAR|APR|MAY|JUN|JUL|AUG|SEP|OCT|NOV|DEC)))?))*$|^\\*/([1-9]|1[0-2])$"

def dowPattern : String :=
  "^(\\*|[0-7]|SUN|MON|TUE|WED|THU|FRI|SAT)((-|\\/)([0-7]|SUN|MON|TUE|WED|THU|FRI|SAT))?(,(([0-7]|SUN|MON|TUE|WED|THU|FRI|SAT)((-|\\/)([0-7]|SUN|MON|TUE|WED|THU|FRI|SAT)))?))*$|^\\*/[1-7]$|^\\?$"

/-! ### Hand-compiled automata for the four well-formed patterns -/

/-- `[0-5]?[0-9]` -/
def minuteNum : RE := RE.cat (ropt (rng '0' '5')) (rng '0' '9')

/-- `(\*|[0-5]?[0-9](-[0-5]?[0-9])?)` -/
def minuteItem : RE :=
  RE.alt (chr '*') (RE.cat minuteNum (ropt (RE.cat (chr '-') minuteNum)))

/-- `minutePattern`: item (`,` item)\* or `\*/[1-9][0-9]?` -/
def minuteRE : RE :=
  RE.alt
    (RE.cat minuteItem (RE.star (RE.cat (chr ',') minuteItem)))
    (cats [chr '*', chr '/', rng '1' '9', ropt (rng '0' '9')])

/-- `[01]?[0-9]|2[0-3]` -/
def hourNum : RE :=
  RE.alt (RE.cat (ropt (rng '0' '1')) (rng '0' '9')) (RE.cat (chr '2') (rng '0' '3'))

/-- `(-|\/)` -/
def dashSlash : RE := RE.alt (chr '-') (chr '/')

/-- `hourPattern`: `(\*|h)((-|\/)h)?(,h((-|\/)h)?)*` or `\*/([1-9]|1[0-9]|2[0-3])` -/
def hourRE : RE :=
  RE.alt
    (cats [RE.alt (chr '*') hourNum,
           ropt (RE.cat dashSlash hourNum),
           RE.star (cats [chr ',', hourNum, ropt (RE.cat dashSlash hourNum)])])
    (cats [chr '*', chr '/',
           alts [rng '1' '9',
                 RE.cat (chr '1') (rng '0' '9'),
                 RE.cat (chr '2') (rng '0' '3')]])

/-- `[1-9]|[12][0-9]|3[01]` -/
def domNum : RE :=
  alts [rng '1' '9',
        RE.cat (rng '1' '2') (rng '0' '9'),
        RE.cat (chr '3') (rng '0' '1')]

/-- `domPattern`: `(\*|d)((-|\/)(d))?(,(d((-|\/)(d))?))*` or `\*/d` or `\?` -/
def domRE : RE :=
  alts
    [cats [RE.alt (chr '*') domNum,
           ropt (RE.cat dashSlash domNum),
           RE.star (cats [chr ',', domNum, ropt (RE.cat dashSlash domNum)])],
     cats [chr '*', chr '/', domNum],
     chr '?']

/-- `[1-9]|1[0-2]|JAN|...|DEC` -/
def monthNum : RE :=
  alts [rng '1' '9',
        RE.cat (chr '1') (rng '0' '2'),
        strCI "JAN", strCI "FEB", strCI "MAR", strCI "APR",
        strCI "MAY", strCI "JUN", strCI "JUL", strCI "AUG",
        strCI "SEP", strCI "OCT", strCI "NOV", strCI "DEC"]

/-- `monthPattern`: `(\*|m)((-|\/)(m))?(,(m((-|\/)(m))?))*` or `\*/([1-9]|1[0-2])` -/
def monthRE : RE :=
  RE.alt
    (cats [RE.alt (chr '*') monthNum,
           ropt (RE.cat dashSlash monthNum),
           RE.star (cats [chr ',', monthNum, ropt (RE.cat dashSlash monthNum)])])
    (cats [chr '*', chr '/', RE.alt (rng '1' '9') (RE.cat (chr '1') (rng '0' '2'))])

/-- Placeholder for the `day_of_week` field.  The source's `day_of_week`
pattern never compiles (its parentheses are unbalanced, see
`dowPattern_unbalanced`), so `reMatch dowPattern dowRE _` always returns
`.error` and this automaton is never consulted. -/
def dowRE : RE := RE.emp

/-! ## `validate_cron_expression` -/

/-- Python truthiness of an optional string (`not s`): `None` and `""` are falsy. -/
def strFalsy : Option String → Bool
  | none => true
  | some s => s == ""

/-- Whitespace tokenizer: splits a character list on whitespace runs,
dropping empty pieces (`acc` holds the current token, reversed). -/
def wsTokensGo : List Char → List Char → List (List Char)
  | [], acc => if acc.isEmpty then [] else [acc.reverse]
  | c :: cs, acc =>
    if c.isWhitespace then
      if acc.isEmpty then wsTokensGo cs []
      else acc.reverse :: wsTokensGo cs []
    else wsTokensGo cs (c :: acc)

/-- Python `cron_expression.strip().split()`.  `str.split()` with no
argument already ignores leading and trailing whitespace and drops empty
pieces, so the preceding `strip()` never changes the resulting fields; the
tokenizer models the composition. -/
def pySplit (s : String) : List String :=
  (wsTokensGo s.data []).map (fun cs => String.mk cs)

/-- The field-validation loop of `validate_cron_expression` together with the
final day-of-month / day-of-week restriction check, on the five split fields.
Each arm mirrors one iteration of the `for` loop in the source: an `re.error`
raised by `re.match` propagates, a failed match returns
`(False, "Invalid <field> field: '<part>'")`, and after all five fields match,
expressions restricting both day-of-month and day-of-week are rejected. -/
def validateFields (p0 p1 p2 p3 p4 : String) : Except PyError (Bool × String) :=
  match reMatch minutePattern minuteRE p0 with
  | .error e => .error e
  | .ok false => .ok (false, "Invalid minute field: \x27" ++ p0 ++ "\x27")
  | .ok true =>
    match reMatch hourPattern hourRE p1 with
    | .error e => .error e
    | .ok false => .ok (false, "Invalid hour field: \x27" ++ p1 ++ "\x27")
    | .ok true =>
      match reMatch domPattern domRE p2 with
      | .error e => .error e
      | .ok false => .ok (false, "Invalid day_of_month field: \x27" ++ p2 ++ "\x27")
      | .ok true =>
        match reMatch monthPattern monthRE p3 with
        | .error e => .error e
        | .ok false => .ok (false, "Invalid month field: \x27" ++ p3 ++ "\x27")
        | .ok true =>
          match reMatch dowPattern dowRE p4 with
          | .error e => .error e
          | .ok false => .ok (false, "Invalid day_of_week field: \x27" ++ p4 ++ "\x27")
          | .ok true =>
            if p2 ≠ "*" && p2 ≠ "?" && p4 ≠ "*" && p4 ≠ "?" then
              .ok (false, "Day-of-month and day-of-week can\x27t both be restricted")
            else
              .ok (true, "")

/-- `validate_cron_expression` from `cron_validator.py`.  A raised Python
exception is modelled as `.error`; a normal `(bool, str)` return as `.ok`. -/
def validate_cron_expression (cron_expression : String) : Except PyError (Bool × String) :=
  if cron_expression = "" then
    .ok (false, "Cron expression must be a non-empty string")
  else
    let parts := pySplit cron_expression
    if h : parts.length = 5 then
      validateFields
        (parts.get ⟨0, by omega⟩) (parts.get ⟨1, by omega⟩)
        (parts.get ⟨2, by omega⟩) (parts.get ⟨3, by omega⟩)
        (parts.get ⟨4, by omega⟩)
    else
      .ok (false,
        "Cron expression must have exactly 5 fields, found " ++ toString parts.length)

/-! Cross-checks of the hand-compiled automata against the behaviour of
Python's `re.match` on the same fields (sampled from the source patterns). -/

example : minuteRE.matchStr "0" = true := by decide
example : minuteRE.matchStr "59" = true := by decide
example : minuteRE.matchStr "5-10" = true := by decide
example : minuteRE.matchStr "0,15,30,45" = true := by decide
example : minuteRE.matchStr "*/5" = true := by decide
example : minuteRE.matchStr "*/99" = true := by decide
example : minuteRE.matchStr "*,*" = true := by decide
example : minuteRE.matchStr "60" = false := by decide
example : minuteRE.matchStr "*/05" = false := by decide
example : minuteRE.matchStr "*/0" = false := by decide
example : minuteRE.matchStr "5-" = false := by decide
example : minuteRE.matchStr "-5" = false := by decide
example : minuteRE.matchStr "" = false := by decide
example : hourRE.matchStr "23" = true := by decide
example : hourRE.matchStr "9-17" = true := by decide
example : hourRE.matchStr "*/2" = true := by decide
example : hourRE.matchStr "1/3" = true := by decide
example : hourRE.matchStr "*,5" = true := by decide
example : hourRE.matchStr "02" = true := by decide
example : hourRE.matchStr "24" = false := by decide
example : hourRE.matchStr "*/24" = false := by decide
example : domRE.matchStr "31" = true := by decide
example : domRE.matchStr "?" = true := by decide
example : domRE.matchStr "1-15" = true := by decide
example : domRE.matchStr "10/5" = true := by decide
example : domRE.matchStr "0" = false := by decide
example : domRE.matchStr "32" = false := by decide
example : domRE.matchStr "?,1" = false := by decide
example : monthRE.matchStr "12" = true := by decide
example : monthRE.matchStr "jan" = true := by decide
example : monthRE.matchStr "JAN-MAR" = true := by decide
example : monthRE.matchStr "FEB/2" = true := by decide
example : monthRE.matchStr "jAn" = true := by decide
example : monthRE.matchStr "13" = false := by decide
example : monthRE.matchStr "0" = false := by decide

/-- The four first field patterns compile (balanced parentheses)... -/
example : parensBalanced minutePattern = true := by decide
example : parensBalanced hourPattern = true := by decide
example : parensBalanced domPattern = true := by decide
example : parensBalanced monthPattern = true := by decide

/-- ...but the `day_of_week` pattern does not: it has one unmatched `)`. -/
theorem dowPattern_unbalanced : parensBalanced dowPattern = false := by decide

/-! ## The dedup registry of `CronTriggerService`

`_running_tasks : Dict[str, asyncio.Task]` maps task ids to tasks.  A task id
is built in `_check_workflows` as `f"{workflow.workflow_id}_{int(current_time.timestamp())}"`.
We model a registered entry by the pair it is built from and the dictionary by
the list of its keys (dictionary keys are unique; `regNodup` below proves the
model never registers a duplicate).  All mutations of `_running_tasks` happen
under `_task_lock`: the admission check-and-insert of `_check_workflows`
(`admitRun`), and the `pop(task_id, None)` calls of `_run_workflow`'s `finally`
block and of `stop` (`deregister`). -/

structure RunKey : Type where
  wf : String
  ts : Nat
deriving DecidableEq, Repr

/-- `f"{workflow.workflow_id}_{int(current_time.timestamp())}"` -/
def taskId (k : RunKey) : String :=
  k.wf ++ "_" ++ toString k.ts

/-- The keys of `_running_tasks`. -/
abbrev RegState := List RunKey

/-- Python `str.startswith`. -/
def pyStartswith (s pre : String) : Bool :=
  pre.data.isPrefixOf s.data

/-- `existing_tasks = [k for k in self._running_tasks.keys() if k.startswith(workflow.workflow_id)]`
is non-empty. -/
def hasRunning (s : RegState) (wfid : String) : Bool :=
  s.any (fun k => pyStartswith (taskId k) wfid)

/-- The admission step of `_check_workflows` (lines 104-133): under the lock,
skip if some registered key starts with `workflow.workflow_id`, otherwise
register `task_id`. -/
def admitRun (s : RegState) (wfid : String) (ts : Nat) : RegState :=
  if hasRunning s wfid then s else ⟨wfid, ts⟩ :: s

/-- `self._running_tasks.pop(task_id, None)` under the lock. -/
def deregister (s : RegState) (tid : String) : RegState :=
  s.filter (fun k => taskId k ≠ tid)

/-- The states of `_running_tasks` reachable from the empty initial dictionary
through the operations that mutate it. -/
inductive Reachable : RegState → Prop where
  | init : Reachable []
  | admitStep {s} (wfid : String) (ts : Nat) :
      Reachable s → Reachable (admitRun s wfid ts)
  | deregStep {s} (tid : String) :
      Reachable s → Reachable (deregister s tid)

theorem taskId_startswith (k : RunKey) : pyStartswith (taskId k) k.wf = true := by
  have h : (taskId k).data = k.wf.data ++ ("_" ++ toString k.ts).data := by
    simp [taskId, String.data_append, List.append_assoc]
  simp only [pyStartswith, h]
  exact List.isPrefixOf_iff_prefix.mpr (List.prefix_append _ _)

theorem hasRunning_of_mem {s : RegState} {k : RunKey} (hk : k ∈ s) :
    hasRunning s k.wf = true := by
  simp only [hasRunning, List.any_eq_true]
  exact ⟨k, hk, taskId_startswith k⟩

/-- The registry invariant: pairwise-distinct task ids, and at most one
registered run per workflow id. -/
def RegInvariant (s : RegState) : Prop :=
  (s.map taskId).Nodup ∧ ∀ wfid : String, s.countP (fun k => k.wf == wfid) ≤ 1

theorem regInvariant_admitRun {s : RegState} (hs : RegInvariant s)
    (wfid : String) (ts : Nat) : RegInvariant (admitRun s wfid ts) := by
  rcases hs with ⟨hnd, hcount⟩
  by_cases hrun : hasRunning s wfid = true
  · simpa [admitRun, hrun] using ⟨hnd, hcount⟩
  · have hnone : ∀ k ∈ s, ¬ pyStartswith (taskId k) wfid = true := by
      intro k hk hpre
      exact hrun (by simp only [hasRunning, List.any_eq_true]; exact ⟨k, hk, hpre⟩)
    have hreg : admitRun s wfid ts = ⟨wfid, ts⟩ :: s := by simp [admitRun, hrun]
    constructor
    · rw [hreg, List.map_cons, List.nodup_cons]
      refine ⟨?_, hnd⟩
      intro hmem
      rcases List.mem_map.mp hmem with ⟨k, hk, hkid⟩
      have hpre : pyStartswith (taskId k) wfid = true := by
        have hwf : pyStartswith (taskId ⟨wfid, ts⟩) wfid = true :=
          taskId_startswith ⟨wfid, ts⟩
        rw [hkid]; exact hwf
      exact hnone k hk hpre
    · intro wfid'
      rw [hreg, List.countP_cons]
      by_cases hw : wfid = wfid'
      · subst hw
        have hzero : s.countP (fun k => k.wf == wfid) = 0 := by
          rw [List.countP_eq_zero]
          intro k hk hbeq
          have hkwf : k.wf = wfid := by simpa using hbeq
          exact hnone k hk (hkwf ▸ taskId_startswith k)
        simp only [hzero]
        split <;> omega
      · have hne : ((⟨wfid, ts⟩ : RunKey).wf == wfid') = false := by simpa using hw
        simp only [hne, if_false]
        simpa using hcount wfid'

theorem regInvariant_deregister {s : RegState} (hs : RegInvariant s)
    (tid : String) : RegInvariant (deregister s tid) := by
  rcases hs with ⟨hnd, hcount⟩
  constructor
  · exact List.Nodup.sublist ((List.filter_sublist s).map taskId) hnd
  · intro wfid
    calc (deregister s tid).countP (fun k => k.wf == wfid)
        ≤ s.countP (fun k => k.wf == wfid) :=
          (List.filter_sublist s).countP_le _
      _ ≤ 1 := hcount wfid

/-- Invariant of the dedup registry: every reachable state of `_running_tasks`
has pairwise-distinct task ids and at most one registered run per workflow id. -/
theorem reachable_invariant {s : RegState} (h : Reachable s) : RegInvariant s := by
  induction h with
  | init => exact ⟨List.nodup_nil, by intro wfid; simp⟩
  | admitStep wfid ts _ ih => exact regInvariant_admitRun ih wfid ts
  | deregStep tid _ ih => exact regInvariant_deregister ih tid

/-! ## `_run_workflow` (lines 142-206)

The body is `try: ... except Exception: log ... finally: async with lock: pop`.
The `try` body can complete normally, raise an `Exception` (caught and logged
by the `except` arm), or be cancelled (`asyncio.CancelledError` is a
`BaseException`, not caught by `except Exception`); in every case the
`finally` block runs and pops `task_id` from `_running_tasks`. -/

inductive RunOutcome : Type where
  | success : RunOutcome
  | raised : RunOutcome
  | cancelled : RunOutcome
deriving DecidableEq, Repr

/-- The effect of one complete `_run_workflow` invocation on the keys of
`_running_tasks`, by outcome of its `try` body.  Each arm ends in the
`finally` block's `pop(task_id, None)`. -/
def runWorkflow (outcome : RunOutcome) (tid : String) (s : RegState) : RegState :=
  match outcome with
  | .success => deregister s tid
  | .raised => deregister s tid
  | .cancelled => deregister s tid

/-! ## The `stop()` / run-task interaction (lines 34-53 and 203-206)

A small-step model of one `stop()` call racing one outstanding run task,
under asyncio's cooperative scheduling: control only changes hands at `await`
points.  `stop` (lines 42-52) acquires `_task_lock` and, still holding it,
cancels the task and awaits it; the task's `finally` block (lines 203-206)
must itself acquire `_task_lock` before it can pop its id and finish. -/

/-- Program counter of the `stop()` coroutine.
  * `entered`: `stop` has set the shutdown event and awaited the main loop;
    it is about to execute `async with self._task_lock` (line 42).
  * `holdingLock`: `stop` holds `_task_lock`, has called `task.cancel()` and
    is suspended at `await task` (line 47).
  * `returned`: the `async with` block finished and `stop` returned. -/
inductive StopPC : Type where
  | entered : StopPC
  | holdingLock : StopPC
  | returned : StopPC
deriving DecidableEq, Repr

/-- Program counter of the outstanding `_run_workflow` task.
  * `running`: suspended at an `await` inside the `try` body.
  * `needsLock`: unwinding after completion or cancellation of the `try`
    body; suspended at `async with self._task_lock` in the `finally` block
    (line 205).
  * `finished`: the `finally` block ran (its pop executed) and the task is
    done. -/
inductive TaskPC : Type where
  | running : TaskPC
  | needsLock : TaskPC
  | finished : TaskPC
deriving DecidableEq, Repr

inductive LockOwner : Type where
  | stopCo : LockOwner
  | taskCo : LockOwner
deriving DecidableEq, Repr

structure StopConfig : Type where
  spc : StopPC
  tpc : TaskPC
  lock : Option LockOwner
  reg : RegState
deriving DecidableEq, Repr

/-- One cooperative step of the `stop()` / run-task system.  Instruction runs
between two `await` points execute atomically. -/
inductive StopStep : StopConfig → StopConfig → Prop where
  /-- The task's `try` body finishes (normally or by an exception caught by
  the `except` arm) while `stop` does not hold the lock; the task proceeds to
  its `finally` block and now needs `_task_lock`. -/
  | taskBodyEnds {c : StopConfig} :
      c.tpc = .running →
      StopStep c { c with tpc := .needsLock }
  /-- The task acquires the free lock in its `finally` block, pops its id,
  releases the lock and finishes (lines 203-206; no `await` inside the
  critical section other than the acquire itself). -/
  | taskCleanup {c : StopConfig} (tid : String) :
      c.tpc = .needsLock → c.lock = none →
      StopStep c { c with tpc := .finished, reg := deregister c.reg tid }
  /-- `stop` acquires the free lock (line 42), snapshots
  `list(self._running_tasks.items())`, sees the task not done, calls
  `task.cancel()` and suspends at `await task` (lines 43-47); the
  cancellation makes the task unwind to its `finally` block. -/
  | stopAcquires {c : StopConfig} :
      c.spc = .entered → c.lock = none → c.tpc ≠ .finished →
      StopStep c { c with spc := .holdingLock, tpc := .needsLock, lock := some .stopCo }
  /-- `stop` acquires the free lock when the task has already finished: the
  snapshot's task is done (or the dictionary is empty), so `stop` pops the
  remaining entries, releases the lock and returns (lines 42-52). -/
  | stopFastPath {c : StopConfig} (tid : String) :
      c.spc = .entered → c.lock = none → c.tpc = .finished →
      StopStep c { c with spc := .returned, lock := none, reg := deregister c.reg tid }
  /-- `await task` resumes once the task is done; `stop` pops the id,
  releases the lock and returns (lines 47-52). -/
  | stopAwaitResumes {c : StopConfig} (tid : String) :
      c.spc = .holdingLock → c.tpc = .finished →
      StopStep c { c with spc := .returned, lock := none, reg := deregister c.reg tid }

/-- The configuration in which `stop()` has been called while the run task
`tid` is still registered and suspended inside its `try` body. -/
def stopInit (k : RunKey) : StopConfig :=
  { spc := .entered, tpc := .running, lock := none, reg := [k] }

/-- The deadlocked configuration: `stop` holds `_task_lock` and awaits the
cancelled task, which is waiting for `_task_lock` in its `finally` block. -/
def stopDeadlock (k : RunKey) : StopConfig :=
  { spc := .holdingLock, tpc := .needsLock, lock := some .stopCo, reg := [k] }

theorem stopStep_to_deadlock (k : RunKey) :
    StopStep (stopInit k) (stopDeadlock k) := by
  have h := StopStep.stopAcquires (c := stopInit k)
    (by rfl) (by rfl) (by intro h; cases h)
  simpa [stopInit, stopDeadlock] using h

theorem stopDeadlock_stuck (k : RunKey) (c : StopConfig) :
    ¬ StopStep (stopDeadlock k) c := by
  intro h
  cases h with
  | taskBodyEnds h1 => simp [stopDeadlock] at h1
  | taskCleanup tid h1 h2 => simp [stopDeadlock] at h2
  | stopAcquires h1 h2 h3 => simp [stopDeadlock] at h1
  | stopFastPath tid h1 h2 h3 => simp [stopDeadlock] at h1
  | stopAwaitResumes tid h1 h2 => simp [stopDeadlock] at h2

/-! ## `start()` / `stop()` lifecycle (lines 27-53)

`__init__` sets `_running_tasks = {}`, a cleared `_shutdown_event` and
`_main_task = None`.  `loops` counts the live `_scheduler_loop` tasks: a loop
task stays alive until it observes `_shutdown_event` set (line 57). -/

structure SvcState : Type where
  /-- number of live `_scheduler_loop` tasks -/
  loops : Nat
  /-- `self._main_task is not None` -/
  mainTask : Bool
  /-- `self._shutdown_event.is_set()` -/
  shutdownSet : Bool
  /-- keys of `self._running_tasks` -/
  tasks : RegState
deriving DecidableEq, Repr

/-- The state after `__init__`. -/
def svcInit : SvcState :=
  { loops := 0, mainTask := false, shutdownSet := false, tasks := [] }

/-- `start()` (lines 27-32): clears `_shutdown_event`, spawns a fresh
`_scheduler_loop` task and stores it in `_main_task`.  It does not check
whether the service is already running: a previously spawned loop task — whose
shared shutdown event was just cleared — stays alive alongside the new one,
only the `_main_task` reference is overwritten. -/
def startSvc (s : SvcState) : SvcState :=
  { s with shutdownSet := false, mainTask := true, loops := s.loops + 1 }

/-- `stop()` (lines 34-53), in the executions where every outstanding run
task is already done (otherwise `stop` deadlocks, see `StopStep` above and
the C2 theorem): if `_main_task` is set, set `_shutdown_event`, await the
loop task referenced by `_main_task` (which exits at its next check of the
event) and clear `_main_task`; then pop every entry of `_running_tasks`. -/
def stopSvc (s : SvcState) : SvcState :=
  let s1 := if s.mainTask then
      { s with shutdownSet := true, loops := s.loops - 1, mainTask := false }
    else s
  { s1 with tasks := [] }

/-! ## The due decision of `_check_workflows` (lines 89-101)

The code computes `prev_execution_time = croniter(cron_schedule, local_time).get_prev(datetime)`,
`time_diff = (local_time - prev_execution_time).total_seconds()` and treats
the workflow as due iff `0 <= time_diff < 60`.  Local time is modelled as
seconds (`Int`); `croniter` is an external library, so `get_prev` is
modelled from the spec. -/

/-- The due test of lines 99-101 for a given `get_prev` function. -/
def dueCheck (getPrev : Int → Int) (now : Int) : Bool :=
  let diff := now - getPrev now
  decide (0 ≤ diff ∧ diff < 60)

/-- Modelled from the spec: `croniter("0 0 * * *", local_time).get_prev(datetime)`
(the croniter library is an external dependency, not part of this
repository).  Per the spec's due-window policy, `get_prev` returns "its most
recent scheduled firing time (strictly before or equal to now)"; for the
daily-at-midnight expression that is the most recent local midnight at or
before `now`. -/
def prevMidnight (now : Int) : Int := now - now % 86400

/-- A firing time of `0 0 * * *` in local seconds: exactly the local
midnights. -/
def firesMidnight (t : Int) : Prop := t % 86400 = 0

/-! ## Per-workflow processing of `_check_workflows` (lines 83-133) and the
scheduler path of `cron_scheduler.py` -/

structure Workflow : Type where
  workflow_id : String
  workflow_permanent_id : String
  organization_id : String
  title : String
  cron_schedule : Option String
  cron_enabled : Bool
  timezone : String
  /-- read only by `cron_scheduler.schedule_workflow` via
  `getattr(workflow, "cron_timezone", "UTC")`; `none` models the attribute
  being absent (the `workflows` table has no such column). -/
  cron_timezone : Option String
deriving DecidableEq, Repr

/-- One iteration of the inner loop of `_check_workflows` for workflow `w`:
skip when `not workflow.cron_schedule or not workflow.cron_enabled`
(line 86); otherwise, when the due check succeeds, run the admission check
and (on success) register the new task.  `due` abstracts the croniter due
computation of lines 89-101.  Returns the new registry and whether a run
task was spawned. -/
def checkWorkflowStep (w : Workflow) (due : Bool) (s : RegState) (ts : Nat) :
    RegState × Bool :=
  if strFalsy w.cron_schedule || !w.cron_enabled then (s, false)
  else if due then
    (admitRun s w.workflow_id ts, !hasRunning s w.workflow_id)
  else (s, false)

/-- `f"{organization.organization_id}_{workflow.workflow_permanent_id}"` -/
def jobId (orgId : String) (w : Workflow) : String :=
  orgId ++ "_" ++ w.workflow_permanent_id

/-- `scheduler.add_job(..., id=jid, replace_existing=True)` on the list of
scheduled job ids. -/
def addJobReplacing (jobs : List String) (jid : String) : List String :=
  jid :: jobs.filter (fun j => j ≠ jid)

/-- `schedule_workflow` from `cron_scheduler.py` (lines 19-58) acting on the
list of scheduled job ids.  `tzOk` abstracts `ZoneInfo(timezone_str)`
succeeding and `crontabOk` abstracts `CronTrigger.from_crontab(cron_schedule, ...)`
succeeding; on either failure the function logs and returns without adding a
job.  Note the function never reads `cron_enabled`. -/
def scheduleWorkflow (tzOk : String → Bool) (crontabOk : String → Bool)
    (jobs : List String) (w : Workflow) (orgId : String) : List String :=
  if strFalsy w.cron_schedule then jobs
  else
    let cs := w.cron_schedule.getD ""
    let timezone_str := w.cron_timezone.getD "UTC"
    if !tzOk timezone_str then jobs
    else if !crontabOk cs then jobs
    else addJobReplacing jobs (jobId orgId w)

/-! ## `set_cron_schedule` (workflow_schedules.py, lines 51-92) -/

structure CronScheduleRequest : Type where
  cron_schedule : Option String
  cron_enabled : Bool
  timezone : String
deriving DecidableEq, Repr

/-- The cron fields persisted by `update_workflow_cron_settings` and echoed
in the route's response. -/
structure StoredCron : Type where
  cron_schedule : Option String
  cron_enabled : Bool
  timezone : String
deriving DecidableEq, Repr

inductive RouteResult : Type where
  /-- 200 with the updated workflow's cron fields -/
  | success : StoredCron → RouteResult
  /-- `HTTPException(status_code=400, detail=...)` -/
  | http400 : String → RouteResult
  /-- `HTTPException(status_code=404, ...)`: workflow not found -/
  | http404 : RouteResult
  /-- `HTTPException(status_code=500, ...)`: update returned no row -/
  | http500 : RouteResult
  /-- an exception raised by `validate_cron_expression` propagates out of the
  endpoint -/
  | pyraise : PyError → RouteResult
deriving DecidableEq, Repr

/-- `set_cron_schedule`: `workflowExists` abstracts `get_workflow` finding the
workflow, `updateOk` abstracts `update_workflow_cron_settings` returning an
updated row.  The second component records the fields persisted to the store
(`none` when nothing was persisted). -/
def setCronSchedule (workflowExists : Bool) (updateOk : Bool)
    (req : CronScheduleRequest) : RouteResult × Option StoredCron :=
  if !workflowExists then (.http404, none)
  else
    -- `if cron_request.cron_enabled and cron_request.cron_schedule:` (line 63)
    let validated : Option (Except PyError (Bool × String)) :=
      if req.cron_enabled && !strFalsy req.cron_schedule then
        some (validate_cron_expression (req.cron_schedule.getD ""))
      else none
    match validated with
    | some (.error e) => (.pyraise e, none)
    | some (.ok (false, msg)) =>
        (.http400 ("Invalid cron expression: " ++ msg), none)
    | _ =>
      if updateOk then
        let w : StoredCron :=
          { cron_schedule := req.cron_schedule
            cron_enabled := req.cron_enabled
            timezone := req.timezone }
        (.success w, some w)
      else (.http500, none)

/-! ## Helper lemmas -/

theorem pyStartswith_append (a b : String) : pyStartswith (a ++ b) a = true := by
  simp only [pyStartswith, String.data_append]
  exact List.isPrefixOf_iff_prefix.mpr (List.prefix_append _ _)

/-! ## Claim theorems -/

/-- C1: for every reachable state of the `_running_tasks` map and every
workflow id, the set of registered run identifiers belonging to that workflow
has size at most one, and no run identifier is ever registered twice (the
registered task ids are pairwise distinct). -/
theorem claim_C1_dedup_registry_invariant {s : RegState} (h : Reachable s) :
    (∀ wfid : String, s.countP (fun k => k.wf == wfid) ≤ 1) ∧
    (s.map taskId).Nodup :=
  ⟨(reachable_invariant h).2, (reachable_invariant h).1⟩

theorem claim_C1_witness :
    ((admitRun [] "wf" 5).countP (fun k => k.wf == "wf") ≤ 1) ∧
    ((admitRun [] "wf" 5).map taskId).Nodup :=
  ⟨(claim_C1_dedup_registry_invariant (Reachable.admitStep "wf" 5 Reachable.init)).1 "wf",
   (claim_C1_dedup_registry_invariant (Reachable.admitStep "wf" 5 Reachable.init)).2⟩

/-- C9: admission in `_check_workflows` is decided by string matching on task
identifiers via `k.startswith(workflow.workflow_id)`: when one workflow id
extends another (`wf1 ++ u`), an active run of the longer-id workflow blocks
admission of the shorter-id workflow (`admitRun` leaves the registry unchanged,
spawning nothing) even though no run of the shorter-id workflow is active. -/
theorem claim_C9_admission_blocked_by_id_matching
    (wf1 u : String) (ts ts' : Nat) (s : RegState)
    (hmem : (⟨wf1 ++ u, ts⟩ : RunKey) ∈ s)
    (hnone : ∀ k ∈ s, k.wf ≠ wf1) :
    admitRun s wf1 ts' = s ∧ s.countP (fun k => k.wf == wf1) = 0 := by
  have hrun : hasRunning s wf1 = true := by
    simp only [hasRunning, List.any_eq_true]
    refine ⟨⟨wf1 ++ u, ts⟩, hmem, ?_⟩
    have hid : taskId ⟨wf1 ++ u, ts⟩ = wf1 ++ (u ++ "_" ++ toString ts) := by
      simp [taskId, String.append_assoc]
    rw [hid]
    exact pyStartswith_append _ _
  refine ⟨by simp [admitRun, hrun], ?_⟩
  rw [List.countP_eq_zero]
  intro k hk hbeq
  exact hnone k hk (by simpa using hbeq)

theorem claim_C9_witness :
    admitRun [⟨"wf12", 100⟩] "wf1" 200 = ([⟨"wf12", 100⟩] : RegState) ∧
    ([⟨"wf12", 100⟩] : RegState).countP (fun k => k.wf == "wf1") = 0 :=
  claim_C9_admission_blocked_by_id_matching "wf1" "2" 100 200 [⟨"wf12", 100⟩]
    (by decide) (by decide)

/-- C7: for every invocation of `_run_workflow` and every outcome of its
`try` body (success, a raised `Exception`, or cancellation), the `finally`
block's pop runs, so after `_run_workflow` completes `_running_tasks` no
longer contains its `task_id`. -/
theorem claim_C7_cleanup_on_all_outcomes (o : RunOutcome) (tid : String) (s : RegState) :
    tid ∉ (runWorkflow o tid s).map taskId := by
  intro hmem
  rcases List.mem_map.mp hmem with ⟨k, hk, hkid⟩
  cases o <;>
    (simp only [runWorkflow, deregister, List.mem_filter] at hk
     exact absurd hkid (by simpa using hk.2))

/-- C2 (code-bug exhibit): with one run task outstanding when `stop()` runs,
there is a legal cooperative execution in which `stop()` acquires
`_task_lock`, cancels the task and suspends at `await task`, after which no
step is possible: the task needs `_task_lock` (held by `stop`) to run its
`finally` cleanup, and `stop` needs the task to finish.  `stop()` therefore
never returns and the registry never empties, contradicting the claim that
`stop()` returns with an empty `_running_tasks`. -/
theorem claim_C2_stop_deadlocks (k : RunKey) :
    StopStep (stopInit k) (stopDeadlock k) ∧
    (∀ c : StopConfig, ¬ StopStep (stopDeadlock k) c) ∧
    (stopDeadlock k).spc ≠ StopPC.returned ∧
    (stopDeadlock k).reg ≠ [] :=
  ⟨stopStep_to_deadlock k, fun c => stopDeadlock_stuck k c,
   by simp [stopDeadlock], by simp [stopDeadlock]⟩

/-- C3: for a `get_prev` that returns the most recent scheduled firing time
at or before `now` (the spec's reading of croniter), the due decision of
lines 99-101 holds exactly when that firing lies in the trailing 60-second
window ending at `now`; and for `0 0 * * *`, at local 00:00:30 the workflow
is due, at 00:01:01 and at 23:59:59 it is not. -/
theorem claim_C3_due_window
    (getPrev : Int → Int) (fires : Int → Prop)
    (hle : ∀ t, getPrev t ≤ t)
    (hfires : ∀ t, fires (getPrev t))
    (hmax : ∀ t u, fires u → u ≤ t → u ≤ getPrev t)
    (now : Int) :
    (dueCheck getPrev now = true ↔ ∃ t, fires t ∧ t ≤ now ∧ now - t < 60) ∧
    dueCheck prevMidnight 30 = true ∧
    dueCheck prevMidnight 61 = false ∧
    dueCheck prevMidnight 86399 = false := by
  refine ⟨?_, by decide, by decide, by decide⟩
  simp only [dueCheck, decide_eq_true_eq]
  constructor
  · rintro ⟨_, h60⟩
    exact ⟨getPrev now, hfires now, hle now, h60⟩
  · rintro ⟨t, hf, hle', hdiff⟩
    have h1 := hmax now t hf hle'
    have h2 := hle now
    omega

theorem claim_C3_witness :
    (dueCheck prevMidnight 30 = true ↔
      ∃ t : Int, firesMidnight t ∧ t ≤ 30 ∧ 30 - t < 60) ∧
    dueCheck prevMidnight 30 = true ∧
    dueCheck prevMidnight 61 = false ∧
    dueCheck prevMidnight 86399 = false :=
  claim_C3_due_window prevMidnight firesMidnight
    (fun t => by simp only [prevMidnight]; omega)
    (fun t => by simp only [firesMidnight, prevMidnight]; omega)
    (fun t u hf hu => by
      simp only [firesMidnight] at hf
      simp only [prevMidnight]
      omega)
    30

/-- C5 counterexample: a workflow with `cron_enabled = False` but a non-null
cron expression.  `schedule_workflow` never reads `cron_enabled`, so the
scheduler-based loader adds a job for it, contradicting the claim that no
job is ever scheduled for a disabled workflow. -/
theorem claim_C5_counterexample :
    (⟨"wf", "wp", "org", "T", some "0 0 * * *", false, "UTC", none⟩ : Workflow).cron_enabled
        = false ∧
    scheduleWorkflow (fun _ => true) (fun _ => true) []
        ⟨"wf", "wp", "org", "T", some "0 0 * * *", false, "UTC", none⟩ "org"
      = ["org_wp"] :=
  ⟨rfl, rfl⟩

/-- C5 amended: the poll loop spawns no run task for a workflow whose
`cron_enabled` is false or whose cron expression is null/empty; the
scheduler-based loader skips only workflows whose cron expression is
null/empty (it does not consult `cron_enabled`). -/
theorem claim_C5_amended (w : Workflow)
    (hdis : w.cron_enabled = false ∨ strFalsy w.cron_schedule = true)
    (due : Bool) (s : RegState) (ts : Nat)
    (tzOk crontabOk : String → Bool) (jobs : List String) (orgId : String) :
    checkWorkflowStep w due s ts = (s, false) ∧
    (strFalsy w.cron_schedule = true →
      scheduleWorkflow tzOk crontabOk jobs w orgId = jobs) := by
  constructor
  · rcases hdis with h | h
    · simp [checkWorkflowStep, h]
    · simp [checkWorkflowStep, h]
  · intro h
    simp [scheduleWorkflow, h]

theorem claim_C5_witness :
    checkWorkflowStep ⟨"wf", "wp", "org", "T", none, false, "UTC", none⟩ true [] 0
        = ([], false) ∧
    (strFalsy (⟨"wf", "wp", "org", "T", none, false, "UTC", none⟩ : Workflow).cron_schedule
        = true →
      scheduleWorkflow (fun _ => true) (fun _ => true) []
          ⟨"wf", "wp", "org", "T", none, false, "UTC", none⟩ "org" = []) :=
  claim_C5_amended ⟨"wf", "wp", "org", "T", none, false, "UTC", none⟩ (Or.inl rfl)
    true [] 0 (fun _ => true) (fun _ => true) [] "org"

/-- C6 counterexample: `start()` does not check whether the service is
already running, so two consecutive `start()` calls leave two live poll
loops, not one. -/
theorem claim_C6_counterexample :
    (startSvc (startSvc svcInit)).loops = 2 ∧
    (startSvc (startSvc svcInit)).loops ≠ 1 :=
  ⟨rfl, by decide⟩

/-- C6 amended: `stop()` is idempotent when already stopped (a second call
leaves the state unchanged), but `start()` when already running is not a
no-op: it spawns an additional poll loop, so two consecutive `start()` calls
leave two poll loops running. -/
theorem claim_C6_amended (s : SvcState)
    (h1 : s.mainTask = false) (h2 : s.tasks = []) :
    stopSvc s = s ∧ (startSvc (startSvc svcInit)).loops = 2 := by
  refine ⟨?_, rfl⟩
  cases s with
  | mk loops mainTask shutdownSet tasks => simp_all [stopSvc]

theorem claim_C6_witness :
    stopSvc svcInit = svcInit ∧ (startSvc (startSvc svcInit)).loops = 2 :=
  claim_C6_amended svcInit rfl rfl

/-- A string starting with a non-empty literal is non-empty. -/
theorem str_append_ne_empty (a b : String) (ha : a ≠ "") : a ++ b ≠ "" := by
  intro h
  apply ha
  have hd : a.data ++ b.data = ([] : List Char) := by
    rw [← String.data_append]; rw [h]
  exact String.ext (List.append_eq_nil.mp hd).1

/-- C4 (code-bug exhibit): on the valid expression `0 0 * * *` the validator
does not return `(True, "")`; it raises `re.error`.  The first four fields
match their (well-formed) patterns, so the field loop reaches the
`day_of_week` pattern, whose parentheses are unbalanced: compiling it inside
`re.match` raises, and the exception propagates out of
`validate_cron_expression`. -/
theorem claim_C4_validator_raises :
    validate_cron_expression "0 0 * * *" = .error PyError.reUnbalanced ∧
    parensBalanced minutePattern = true ∧
    parensBalanced hourPattern = true ∧
    parensBalanced domPattern = true ∧
    parensBalanced monthPattern = true ∧
    parensBalanced dowPattern = false ∧
    minuteRE.matchStr "0" = true ∧
    hourRE.matchStr "0" = true ∧
    domRE.matchStr "*" = true ∧
    monthRE.matchStr "*" = true :=
  ⟨rfl, by decide, by decide, by decide, by decide, by decide,
   by decide, by decide, by decide, by decide⟩

/-- C8: every input that does not split into exactly 5 whitespace-separated
fields is rejected by `validate_cron_expression` with `(False, m)` for a
non-empty `m` (no exception: the field loop with its broken pattern is never
reached), and such an expression is never evaluated for due-ness: for a
non-empty such expression, enabling it through `set_cron_schedule` produces
the 400 invalid-expression error without persisting anything, so no enabled
workflow carries it; and for the one shape the route lets through enabled —
the empty expression — as well as for any workflow holding it disabled, the
guard `not workflow.cron_schedule or not workflow.cron_enabled` (line 86 of
`cron_trigger_service.py`) skips the workflow before the croniter due
computation of lines 89-101, whatever that computation would return. -/
theorem claim_C8_field_count (s : String)
    (h : (pySplit s).length ≠ 5) :
    ∃ m, validate_cron_expression s = .ok (false, m) ∧ m ≠ "" ∧
      (s ≠ "" → ∀ (u : Bool) (tz : String),
        setCronSchedule true u ⟨some s, true, tz⟩ =
          (.http400 ("Invalid cron expression: " ++ m), none)) ∧
      (∀ w : Workflow, w.cron_schedule = some s →
        s = "" ∨ w.cron_enabled = false →
        ∀ (due : Bool) (st : RegState) (ts : Nat),
          checkWorkflowStep w due st ts = (st, false)) := by
  have hskip : ∀ w : Workflow, w.cron_schedule = some s →
      s = "" ∨ w.cron_enabled = false →
      ∀ (due : Bool) (st : RegState) (ts : Nat),
        checkWorkflowStep w due st ts = (st, false) := by
    intro w hw hcase due st ts
    rcases hcase with hse | hen
    · have hfal : strFalsy w.cron_schedule = true := by
        rw [hw, hse]
        rfl
      simp [checkWorkflowStep, hfal]
    · simp [checkWorkflowStep, hen]
  by_cases hs : s = ""
  · subst hs
    refine ⟨"Cron expression must be a non-empty string", rfl, by decide, ?_, hskip⟩
    intro hne
    exact absurd rfl hne
  · have hv : validate_cron_expression s =
        .ok (false, "Cron expression must have exactly 5 fields, found "
              ++ toString (pySplit s).length) := by
      unfold validate_cron_expression
      rw [if_neg hs]
      exact dif_neg h
    refine ⟨_, hv, str_append_ne_empty _ _ (by decide), ?_, hskip⟩
    intro _ u tz
    have hfal : strFalsy (some s) = false := by
      simp only [strFalsy]
      exact beq_eq_false_iff_ne.mpr hs
    simp [setCronSchedule, hfal, hv]

theorem claim_C8_witness :
    ((pySplit "* * * *").length ≠ 5) ∧
    (∃ m, validate_cron_expression "* * * *" = .ok (false, m) ∧ m ≠ "" ∧
      ("* * * *" ≠ "" → ∀ (u : Bool) (tz : String),
        setCronSchedule true u ⟨some "* * * *", true, tz⟩ =
          (.http400 ("Invalid cron expression: " ++ m), none)) ∧
      (∀ w : Workflow, w.cron_schedule = some "* * * *" →
        "* * * *" = "" ∨ w.cron_enabled = false →
        ∀ (due : Bool) (st : RegState) (ts : Nat),
          checkWorkflowStep w due st ts = (st, false))) :=
  ⟨by decide, claim_C8_field_count "* * * *" (by decide)⟩

/-- C10 counterexample: the request `cron_enabled=True, cron_schedule=""`.
Its schedule is non-null and validation of `""` fails, so the claim's iff
demands a 400; but the route's truthiness test `cron_request.cron_schedule`
treats `""` like null, skips validation, persists `""` and returns success. -/
theorem claim_C10_counterexample :
    (setCronSchedule true true ⟨some "", true, "UTC"⟩).1 =
      .success ⟨some "", true, "UTC"⟩ ∧
    (∃ m, validate_cron_expression "" = .ok (false, m) ∧ m ≠ "") ∧
    (∀ m, (setCronSchedule true true ⟨some "", true, "UTC"⟩).1 ≠
      RouteResult.http400 m) := by
  refine ⟨rfl, ⟨_, rfl, by decide⟩, ?_⟩
  intro m h
  exact RouteResult.noConfusion h

/-- C10 amended: `set_cron_schedule` validates only when `cron_enabled` is
true and `cron_schedule` is truthy (non-null AND non-empty — Python
truthiness); any request skipping that test is persisted unvalidated and
succeeds, and (for an existing workflow) the 400 invalid-expression error is
raised exactly when `cron_enabled` is true, `cron_schedule` is truthy, and
the validator returns `(False, ...)`. -/
theorem claim_C10_amended (req : CronScheduleRequest) (u : Bool) :
    ((req.cron_enabled = false ∨ strFalsy req.cron_schedule = true) →
      setCronSchedule true true req =
        (.success ⟨req.cron_schedule, req.cron_enabled, req.timezone⟩,
         some ⟨req.cron_schedule, req.cron_enabled, req.timezone⟩)) ∧
    ((∃ m, (setCronSchedule true u req).1 = .http400 m) ↔
      (req.cron_enabled = true ∧ strFalsy req.cron_schedule = false ∧
       ∃ m, validate_cron_expression (req.cron_schedule.getD "") =
         Except.ok (false, m))) := by
  constructor
  · intro hskip
    have hE : (req.cron_enabled && !strFalsy req.cron_schedule) = false := by
      rcases hskip with h | h <;> simp [h]
    simp [setCronSchedule, hE]
  · by_cases hE : (req.cron_enabled && !strFalsy req.cron_schedule) = true
    · rcases Bool.and_eq_true_iff.mp hE with ⟨hen, hfal⟩
      have hfal' : strFalsy req.cron_schedule = false := by
        simpa using hfal
      rcases hv : validate_cron_expression (req.cron_schedule.getD "") with e | ⟨b, m⟩
      · constructor
        · rintro ⟨m, hm⟩
          simp [setCronSchedule, hE, hv] at hm
        · rintro ⟨-, -, m, hm⟩
          exact Except.noConfusion hm
      · cases b
        · constructor
          · intro _
            exact ⟨hen, hfal', m, rfl⟩
          · intro _
            exact ⟨"Invalid cron expression: " ++ m, by simp [setCronSchedule, hE, hv]⟩
        · constructor
          · rintro ⟨m', hm'⟩
            by_cases hu : u = true <;> simp [setCronSchedule, hE, hv, hu] at hm'
          · rintro ⟨-, -, m', hm'⟩
            simp at hm'
    · have hE' : (req.cron_enabled && !strFalsy req.cron_schedule) = false :=
        Bool.not_eq_true _ ▸ Bool.eq_false_iff.mpr hE
      constructor
      · rintro ⟨m, hm⟩
        by_cases hu : u = true <;> simp [setCronSchedule, hE', hu] at hm
      · rintro ⟨hen, hfal, -⟩
        rw [hen, hfal] at hE
        simp at hE

theorem claim_C10_witness :
    (((⟨none, false, "UTC"⟩ : CronScheduleRequest).cron_enabled = false ∨
        strFalsy (⟨none, false, "UTC"⟩ : CronScheduleRequest).cron_schedule = true) →
      setCronSchedule true true ⟨none, false, "UTC"⟩ =
        (.success ⟨none, false, "UTC"⟩, some ⟨none, false, "UTC"⟩)) ∧
    ((∃ m, (setCronSchedule true true ⟨none, false, "UTC"⟩).1 = .http400 m) ↔
      ((⟨none, false, "UTC"⟩ : CronScheduleRequest).cron_enabled = true ∧
       strFalsy (⟨none, false, "UTC"⟩ : CronScheduleRequest).cron_schedule = false ∧
       ∃ m, validate_cron_expression
           ((⟨none, false, "UTC"⟩ : CronScheduleRequest).cron_schedule.getD "") =
         Except.ok (false, m))) :=
  claim_C10_amended ⟨none, false, "UTC"⟩ true

end CronSpec
